import Mathlib

/-
Verification of the dark-mode theme toggle shipped by this repository.

The repository contains two variants of the same small script:
  * `src/unnamed/part_000` — marker class "dark", labels "light"/"dark",
    button inserted into a `div` named "header" when one exists;
  * `src/docs/dark.js`    — marker class "darken", labels ☀️/🌕,
    button prepended at the start of `document.body`, and the themed
    surfaces additionally include `code` and `pre` elements.

The embedding below models the browser state the scripts touch:
`localStorage` restricted to the single key `darkmode_enabled`, and the
document restricted to the observables the scripts read or write — the
marker class on the body, on each `card` element (and on each `code` /
`pre` element for the dark.js variant), the presence of a `div` named
"header" among the body's divs, and the list of elements carrying the id
`dark-button` (in document order, each represented by its text content;
`document.getElementById` returns the first). Insertions at the start of
the body or into the header container are modelled as prepending to that
list; for the claims below only the head and the length of the list
matter.
-/

namespace DarkMode

/-- The browser's `localStorage`, restricted to the one key the scripts use.
`none` models an absent key (`getItem` returns `null`). -/
structure Store where
  darkmode_enabled : Option String
deriving DecidableEq, Repr

/-- The document state the scripts observe and mutate. Each `Bool` records
whether the corresponding element currently carries the marker class. -/
structure Doc where
  bodyDark : Bool
  cards : List Bool
  codes : List Bool
  pres : List Bool
  hasHeaderDiv : Bool
  buttons : List String
deriving DecidableEq, Repr

/-- `localStorage.getItem("darkmode_enabled") || "n"`: both `null` (absent)
and the empty string are falsy in JavaScript, so both fall back to `"n"`.
Named `_get_dark_state` in part_000; dark.js writes the expression inline. -/
def _get_dark_state (st : Store) : String :=
  match st.darkmode_enabled with
  | none => "n"
  | some s => if s = "" then "n" else s

/-- The binary preference of the spec's data model. -/
inductive Preference where
  | Light
  | Dark
deriving DecidableEq, Repr

/-- The preference the scripts resolve from the store: every behavioural
branch in the source tests the read value against `"y"`. -/
def resolvedPref (st : Store) : Preference :=
  if _get_dark_state st = "y" then .Dark else .Light

/-- The state reachable by one more toggle. -/
def opposite : Preference → Preference
  | .Light => .Dark
  | .Dark => .Light

namespace Part000

def UNDARK_TEXT : String := "light"

def DARK_TEXT : String := "dark"

/-- `_set_button_text(enabled)`: `document.getElementById("dark-button")`
returns the first element with that id or `null`; when present its text is
set, otherwise nothing happens. -/
def _set_button_text (enabled : String) (d : Doc) : Doc :=
  match d.buttons with
  | [] => d
  | _ :: rest =>
      { d with buttons := (if enabled = "y" then UNDARK_TEXT else DARK_TEXT) :: rest }

/-- `_darken()`: `classList.toggle("dark")` on the body and on every element
of class `card`. Toggling the marker never changes membership in the live
`card` collection, so the loop flips every card exactly once. -/
def _darken (d : Doc) : Doc :=
  { d with bodyDark := !d.bodyDark, cards := d.cards.map (fun x => !x) }

/-- `toggle_dark()`: computes the opposite of the read state, stores it,
flips the markers, and writes the label for the stored value. -/
def toggle_dark (st : Store) (d : Doc) : Store × Doc :=
  let e := if _get_dark_state st = "y" then "n" else "y"
  (⟨some e⟩, _set_button_text e (_darken d))

/-- `dark_init()`: reads the state, darkens when it is `"y"`, creates a
`span` with id `dark-button` (text content initially empty), and inserts it
into the `div` named "header" when the body has one — `if ("header" in f)
f.header.prepend(b)`; with no such div the created element is never
inserted anywhere. Finally sets the button text via `getElementById`. -/
def dark_init (st : Store) (d : Doc) : Store × Doc :=
  let e := _get_dark_state st
  let d1 := if e = "y" then _darken d else d
  let d2 := if d1.hasHeaderDiv then { d1 with buttons := "" :: d1.buttons } else d1
  (st, _set_button_text e d2)

/-- The configured label pair: the text shown names the state the user
would switch to (`UNDARK_TEXT` = "light" is shown while dark is enabled). -/
def labelOf : Preference → String
  | .Light => UNDARK_TEXT
  | .Dark => DARK_TEXT

/-- Iterated clicks on the control: `n` consecutive `toggle_dark()` calls. -/
def toggleIter : Nat → Store × Doc → Store × Doc
  | 0, s => s
  | n + 1, s => toggleIter n (toggle_dark s.1 s.2)

/-- The observable state claim C1 speaks about: the stored preference and
the marker's presence on the body and on each themed surface. -/
def obs (s : Store × Doc) : Option String × Bool × List Bool :=
  (s.1.darkmode_enabled, s.2.bodyDark, s.2.cards)

end Part000

/-- Outcome of running a JavaScript event handler: either it completes, or
an uncaught exception is thrown; the side effects performed before the
throw persist and are carried alongside the error message. -/
inductive JsOutcome (α : Type) where
  | ok : α → JsOutcome α
  | threw : String → α → JsOutcome α
deriving DecidableEq, Repr

namespace DarkJs

def SUN_SYMBOL : String := "☀️"

def MOON_SYMBOL : String := "🌕"

/-- `_set_button_text(enabled)` of dark.js: same shape as in part_000 but
with the symbol labels. -/
def _set_button_text (enabled : String) (d : Doc) : Doc :=
  match d.buttons with
  | [] => d
  | _ :: rest =>
      { d with buttons := (if enabled = "y" then SUN_SYMBOL else MOON_SYMBOL) :: rest }

/-- `_darken()` of dark.js: toggles `"darken"` on the body, on every `card`
element, and on every `code` and `pre` element. -/
def _darken (d : Doc) : Doc :=
  { d with
    bodyDark := !d.bodyDark
    cards := d.cards.map (fun x => !x)
    codes := d.codes.map (fun x => !x)
    pres := d.pres.map (fun x => !x) }

/-- The binding the identifier `enabled` resolves to at the call site
`_set_button_text(enabled)` inside dark.js's `toggle_dark`. The script has
no declaration of `enabled` in any enclosing scope (the only `enabled` is
the bound parameter of `_set_button_text` itself, which does not leak), so
the lookup fails: reading an undeclared identifier throws a
`ReferenceError` in JavaScript. -/
def enabledBinding : Option String := none

/-- `toggle_dark()` of dark.js: reads the state, stores the opposite,
darkens, then evaluates `_set_button_text(enabled)`. The argument is the
free identifier `enabled`, whose lookup fails, so the handler throws after
the store write and the class flips have already happened. -/
def toggle_dark (st : Store) (d : Doc) : JsOutcome (Store × Doc) :=
  let e := if _get_dark_state st = "y" then "n" else "y"
  let st' : Store := ⟨some e⟩
  let d' := _darken d
  match enabledBinding with
  | none => .threw "ReferenceError: enabled is not defined" (st', d')
  | some v => .ok (st', _set_button_text v d')

/-- `dark_init()` of dark.js: creates a `div` with id `dark-button`,
prepends it at the start of `document.body` unconditionally, then reads
the state, darkens when it is `"y"`, and sets the button text. -/
def dark_init (st : Store) (d : Doc) : Store × Doc :=
  let d1 := { d with buttons := "" :: d.buttons }
  let e := _get_dark_state st
  let d2 := if e = "y" then _darken d1 else d1
  (st, _set_button_text e d2)

end DarkJs

section Lemmas

open Part000

theorem set_button_text_bodyDark (e : String) (d : Doc) :
    (Part000._set_button_text e d).bodyDark = d.bodyDark := by
  cases hb : d.buttons <;> simp [Part000._set_button_text, hb]

theorem set_button_text_cards (e : String) (d : Doc) :
    (Part000._set_button_text e d).cards = d.cards := by
  cases hb : d.buttons <;> simp [Part000._set_button_text, hb]

theorem set_button_text_hasHeaderDiv (e : String) (d : Doc) :
    (Part000._set_button_text e d).hasHeaderDiv = d.hasHeaderDiv := by
  cases hb : d.buttons <;> simp [Part000._set_button_text, hb]

theorem set_button_text_head (e : String) (d : Doc) (h : d.buttons ≠ []) :
    (Part000._set_button_text e d).buttons.head? =
      some (if e = "y" then UNDARK_TEXT else DARK_TEXT) := by
  cases hb : d.buttons with
  | nil => exact absurd hb h
  | cons b rest => simp [Part000._set_button_text, hb]

theorem set_button_text_length (e : String) (d : Doc) :
    (Part000._set_button_text e d).buttons.length = d.buttons.length := by
  cases hb : d.buttons <;> simp [Part000._set_button_text, hb]

theorem toggle_dark_fst (st : Store) (d : Doc) :
    (toggle_dark st d).1 = ⟨some (if _get_dark_state st = "y" then "n" else "y")⟩ := rfl

theorem toggle_dark_bodyDark (st : Store) (d : Doc) :
    (toggle_dark st d).2.bodyDark = !d.bodyDark := by
  unfold toggle_dark
  simp [set_button_text_bodyDark, Part000._darken]

theorem toggle_dark_cards (st : Store) (d : Doc) :
    (toggle_dark st d).2.cards = d.cards.map (fun x => !x) := by
  unfold toggle_dark
  simp [set_button_text_cards, Part000._darken]

theorem get_dark_state_toggle (st : Store) (d : Doc) :
    _get_dark_state (toggle_dark st d).1 =
      (if _get_dark_state st = "y" then "n" else "y") := by
  rw [toggle_dark_fst]
  by_cases h : _get_dark_state st = "y"
  · rw [if_pos h]; rfl
  · rw [if_neg h]; rfl

theorem get_dark_state_eq_y (st : Store) :
    _get_dark_state st = "y" ↔ st.darkmode_enabled = some "y" := by
  unfold _get_dark_state
  cases h : st.darkmode_enabled with
  | none => simp
  | some s =>
      by_cases hs : s = ""
      · subst hs; simp
      · simp [hs]

theorem dark_init_fst (st : Store) (d : Doc) :
    (Part000.dark_init st d).1 = st := rfl

theorem dark_init_bodyDark (st : Store) (d : Doc) :
    (Part000.dark_init st d).2.bodyDark =
      (if _get_dark_state st = "y" then !d.bodyDark else d.bodyDark) := by
  by_cases h : _get_dark_state st = "y" <;> by_cases hh : d.hasHeaderDiv <;>
    simp [Part000.dark_init, h, hh, Part000._darken, set_button_text_bodyDark]

theorem dark_init_cards (st : Store) (d : Doc) :
    (Part000.dark_init st d).2.cards =
      (if _get_dark_state st = "y" then d.cards.map (fun x => !x) else d.cards) := by
  by_cases h : _get_dark_state st = "y" <;> by_cases hh : d.hasHeaderDiv <;>
    simp [Part000.dark_init, h, hh, Part000._darken, set_button_text_cards]

theorem dark_init_buttons_length (st : Store) (d : Doc) :
    (Part000.dark_init st d).2.buttons.length =
      (if d.hasHeaderDiv then d.buttons.length + 1 else d.buttons.length) := by
  by_cases h : _get_dark_state st = "y" <;> by_cases hh : d.hasHeaderDiv <;>
    simp [Part000.dark_init, h, hh, Part000._darken, set_button_text_length]

theorem dark_init_buttons_head (st : Store) (d : Doc) (hd : d.buttons ≠ []) :
    (Part000.dark_init st d).2.buttons.head? =
      some (if _get_dark_state st = "y" then Part000.UNDARK_TEXT else Part000.DARK_TEXT) := by
  unfold Part000.dark_init
  apply set_button_text_head
  by_cases h : _get_dark_state st = "y" <;> by_cases hh : d.hasHeaderDiv <;>
    simp [h, hh, Part000._darken, hd]

theorem darkjs_set_button_text_length (e : String) (d : Doc) :
    (DarkJs._set_button_text e d).buttons.length = d.buttons.length := by
  cases hb : d.buttons <;> simp [DarkJs._set_button_text, hb]

theorem darkjs_init_buttons_length (st : Store) (d : Doc) :
    (DarkJs.dark_init st d).2.buttons.length = d.buttons.length + 1 := by
  by_cases h : _get_dark_state st = "y" <;>
    simp [DarkJs.dark_init, h, DarkJs._darken, darkjs_set_button_text_length]

end Lemmas

section Claims

open Part000

/-- C9: after any toggle() call the stored value under "darkmode_enabled" is
exactly "y" or "n", and it is "y" iff the value read before the call was not
"y"; a single toggle therefore normalizes an absent or invalid stored value
into the valid domain. -/
theorem toggle_stores_normalized (st : Store) (d : Doc) :
    ∃ v, ((Part000.toggle_dark st d).1).darkmode_enabled = some v ∧
      (v = "y" ∨ v = "n") ∧ (v = "y" ↔ ¬ _get_dark_state st = "y") := by
  by_cases h : _get_dark_state st = "y"
  · refine ⟨"n", ?_, Or.inr rfl, ?_⟩
    · rw [toggle_dark_fst, if_pos h]
    · simp [h]
  · refine ⟨"y", ?_, Or.inl rfl, ?_⟩
    · rw [toggle_dark_fst, if_neg h]
    · simp [h]

/-- C10: initialize() flips (class-toggles) the dark marker rather than
setting it: after dark_init the marker on the body and on each card equals
its previous value XOR (stored value = "y"), so a surface already carrying
the marker before load ends up without it. -/
theorem init_xors_markers (st : Store) (d : Doc) :
    (Part000.dark_init st d).2.bodyDark
        = xor d.bodyDark (decide (st.darkmode_enabled = some "y")) ∧
    (Part000.dark_init st d).2.cards
        = d.cards.map (fun c => xor c (decide (st.darkmode_enabled = some "y"))) := by
  by_cases h : st.darkmode_enabled = some "y"
  · have hg : _get_dark_state st = "y" := (get_dark_state_eq_y st).mpr h
    rw [dark_init_bodyDark, dark_init_cards]
    simp [h, hg]
  · have hg : ¬ _get_dark_state st = "y" := fun hc => h ((get_dark_state_eq_y st).mp hc)
    rw [dark_init_bodyDark, dark_init_cards]
    simp [h, hg]

/-- C5 (code bug): in the dark.js variant every toggle_dark() invocation
throws a ReferenceError, because the call _set_button_text(enabled) reads
the undeclared identifier `enabled`; the storage write and the class flips
performed before that call persist, but the operation does not complete
normally, contradicting the claim that no operation ever raises. -/
theorem darkjs_toggle_always_throws (st : Store) (d : Doc) :
    DarkJs.toggle_dark st d =
      .threw "ReferenceError: enabled is not defined"
        (⟨some (if _get_dark_state st = "y" then "n" else "y")⟩, DarkJs._darken d) := rfl

/-- C7 (counterexample): in the part_000 variant, running dark_init on a
document with no header div and no pre-existing control leaves the document
with no dark-button element at all, so the control is not reachable after
initialization, contrary to the claim. -/
theorem control_unreachable_counterexample :
    ((Part000.dark_init ⟨none⟩ ⟨false, [], [], [], false, []⟩).2).buttons = [] := rfl

/-- C7 (amended): dark.js prepends the control at the start of the document
body, so it is always reachable after dark_init; part_000 inserts it into
the designated header container only when one exists, and otherwise the
created control is never inserted into the document. -/
theorem control_insertion (st : Store) (d : Doc) :
    ((DarkJs.dark_init st d).2.buttons.length = d.buttons.length + 1) ∧
    ((Part000.dark_init st d).2.buttons.length =
      if d.hasHeaderDiv then d.buttons.length + 1 else d.buttons.length) :=
  ⟨darkjs_init_buttons_length st d, dark_init_buttons_length st d⟩

/-- C8 (counterexample): part_000's dark_init creates and inserts a second
dark-button element even though the document already contains one (header
div present): afterwards two elements carry the id "dark-button". -/
theorem duplicate_button_counterexample :
    ((Part000.dark_init ⟨none⟩ ⟨false, [], [], [], true, ["old"]⟩).2).buttons.length = 2 := rfl

/-- C8 (amended): neither variant checks the document for an existing
element with the expected id: even when one pre-exists, dark.js always
creates and inserts another, and part_000 creates one unconditionally and
inserts it whenever the header container exists, duplicating the id. -/
theorem button_created_unconditionally (st : Store) (d : Doc) (hpre : d.buttons ≠ []) :
    (DarkJs.dark_init st d).2.buttons.length = d.buttons.length + 1 ∧
    (d.hasHeaderDiv = true →
      (Part000.dark_init st d).2.buttons.length = d.buttons.length + 1) := by
  refine ⟨darkjs_init_buttons_length st d, fun hh => ?_⟩
  rw [dark_init_buttons_length, if_pos hh]

/-- C8 witness: concrete run of the amended claim on a document that already
contains a dark-button element and has a header div. -/
theorem button_created_unconditionally_witness :
    (DarkJs.dark_init ⟨none⟩ ⟨false, [], [], [], true, ["old"]⟩).2.buttons.length =
        (["old"] : List String).length + 1 ∧
    ((⟨false, [], [], [], true, ["old"]⟩ : Doc).hasHeaderDiv = true →
      (Part000.dark_init ⟨none⟩ ⟨false, [], [], [], true, ["old"]⟩).2.buttons.length =
        (["old"] : List String).length + 1) :=
  button_created_unconditionally ⟨none⟩ ⟨false, [], [], [], true, ["old"]⟩ (by decide)

theorem obs_toggle (st : Store) (d : Doc) :
    obs (Part000.toggle_dark st d) =
      (some (if _get_dark_state st = "y" then "n" else "y"), !d.bodyDark,
        d.cards.map (fun x => !x)) := by
  unfold obs
  rw [toggle_dark_fst, toggle_dark_bodyDark, toggle_dark_cards]

theorem obs_toggle_congr (s t : Store × Doc) (h : obs s = obs t) :
    obs (Part000.toggle_dark s.1 s.2) = obs (Part000.toggle_dark t.1 t.2) := by
  have h1 : s.1.darkmode_enabled = t.1.darkmode_enabled := congrArg (fun x => x.1) h
  have h2 : s.2.bodyDark = t.2.bodyDark := congrArg (fun x => x.2.1) h
  have h3 : s.2.cards = t.2.cards := congrArg (fun x => x.2.2) h
  have hg : _get_dark_state s.1 = _get_dark_state t.1 := by
    unfold _get_dark_state
    rw [h1]
  rw [obs_toggle, obs_toggle, hg, h2, h3]

theorem obs_toggleIter_congr (n : Nat) (s t : Store × Doc) (h : obs s = obs t) :
    obs (toggleIter n s) = obs (toggleIter n t) := by
  induction n generalizing s t with
  | zero => exact h
  | succ n ih => exact ih _ _ (obs_toggle_congr s t h)

theorem obs_toggle_toggle (st : Store) (d : Doc)
    (h : st.darkmode_enabled = some "y" ∨ st.darkmode_enabled = some "n") :
    obs (Part000.toggle_dark (Part000.toggle_dark st d).1 (Part000.toggle_dark st d).2) =
      obs (st, d) := by
  rw [obs_toggle, get_dark_state_toggle, toggle_dark_bodyDark, toggle_dark_cards]
  rcases h with h | h
  · have hg : _get_dark_state st = "y" := (get_dark_state_eq_y st).mpr h
    simp [hg, obs, h, List.map_map, Function.comp_def, Bool.not_not, List.map_id]
  · have hg : _get_dark_state st = "n" := by simp [_get_dark_state, h]
    simp [hg, obs, h, List.map_map, Function.comp_def, Bool.not_not, List.map_id]

/-- C1: from any state whose stored preference is a valid value ("y" or
"n"), an even number of consecutive toggle_dark() calls returns the
observable state — the stored preference and the dark marker on the body
and on every card — to its initial value; in particular two toggles are the
identity on it. -/
theorem toggle_even_roundtrip (st : Store) (d : Doc) (n : Nat)
    (h : st.darkmode_enabled = some "y" ∨ st.darkmode_enabled = some "n") :
    obs (toggleIter (2 * n) (st, d)) = obs (st, d) := by
  induction n with
  | zero => rfl
  | succ n ih =>
      have e2 : 2 * (n + 1) = 2 * n + 1 + 1 := by ring
      rw [e2]
      have hstep := obs_toggleIter_congr (2 * n) _ _ (obs_toggle_toggle st d h)
      exact hstep.trans ih

/-- C1 witness: two toggles from the dark state on a concrete document. -/
theorem toggle_even_roundtrip_witness :
    obs (toggleIter (2 * 1) ((⟨some "y"⟩ : Store), (⟨true, [true], [], [], true, ["b"]⟩ : Doc))) =
      obs ((⟨some "y"⟩ : Store), (⟨true, [true], [], [], true, ["b"]⟩ : Doc)) :=
  toggle_even_roundtrip ⟨some "y"⟩ ⟨true, [true], [], [], true, ["b"]⟩ 1 (Or.inl rfl)

/-- C2: after toggle_dark() writes a preference X to the store, a fresh
dark_init() call — a reload, on a document whose surfaces do not yet carry
the marker — reads back X, and applies the dark effect to the body and to
every card exactly when X = "y". -/
theorem toggle_persist_reload (st : Store) (d dF : Doc)
    (hb : dF.bodyDark = false) (hc : ∀ c ∈ dF.cards, c = false) :
    ∃ X, ((Part000.toggle_dark st d).1).darkmode_enabled = some X ∧
      _get_dark_state (Part000.toggle_dark st d).1 = X ∧
      ((Part000.dark_init (Part000.toggle_dark st d).1 dF).2.bodyDark = true ↔ X = "y") ∧
      (∀ c ∈ (Part000.dark_init (Part000.toggle_dark st d).1 dF).2.cards,
        (c = true ↔ X = "y")) := by
  by_cases h : _get_dark_state st = "y"
  · have hfst : (Part000.toggle_dark st d).1 = ⟨some "n"⟩ := by
      rw [toggle_dark_fst, if_pos h]
    have hget : _get_dark_state (Part000.toggle_dark st d).1 = "n" := by
      rw [hfst]; rfl
    refine ⟨"n", by rw [hfst], hget, ?_, ?_⟩
    · rw [dark_init_bodyDark, hget]
      simp [hb]
    · rw [dark_init_cards, hget]
      simp only [if_neg (by decide : ¬ ("n" : String) = "y")]
      intro c hcm
      rw [hc c hcm]
      simp
  · have hfst : (Part000.toggle_dark st d).1 = ⟨some "y"⟩ := by
      rw [toggle_dark_fst, if_neg h]
    have hget : _get_dark_state (Part000.toggle_dark st d).1 = "y" := by
      rw [hfst]; rfl
    refine ⟨"y", by rw [hfst], hget, ?_, ?_⟩
    · rw [dark_init_bodyDark, hget]
      simp [hb]
    · rw [dark_init_cards, hget]
      simp only [if_pos (rfl : ("y" : String) = "y")]
      intro c hcm
      rcases List.mem_map.mp hcm with ⟨a, ha, rfl⟩
      rw [hc a ha]
      simp

/-- C2 witness: an absent stored value toggled to "y", then a reload on a
fresh one-card document. -/
theorem toggle_persist_reload_witness :
    ∃ X, ((Part000.toggle_dark ⟨none⟩ ⟨false, [false], [], [], true, ["b"]⟩).1).darkmode_enabled
          = some X ∧
      _get_dark_state (Part000.toggle_dark ⟨none⟩ ⟨false, [false], [], [], true, ["b"]⟩).1 = X ∧
      ((Part000.dark_init (Part000.toggle_dark ⟨none⟩ ⟨false, [false], [], [], true, ["b"]⟩).1
          ⟨false, [false], [], [], false, []⟩).2.bodyDark = true ↔ X = "y") ∧
      (∀ c ∈ (Part000.dark_init (Part000.toggle_dark ⟨none⟩ ⟨false, [false], [], [], true, ["b"]⟩).1
          ⟨false, [false], [], [], false, []⟩).2.cards, (c = true ↔ X = "y")) :=
  toggle_persist_reload ⟨none⟩ ⟨false, [false], [], [], true, ["b"]⟩
    ⟨false, [false], [], [], false, []⟩ rfl (by decide)

/-- C3: when the stored key is absent or holds any value other than "y" and
"n", dark_init() resolves the preference to Light and, on a fresh document,
leaves the dark marker absent from the body and from every card. -/
theorem init_default_light (st : Store) (d : Doc)
    (hst : st.darkmode_enabled = none ∨
      ∃ s, st.darkmode_enabled = some s ∧ s ≠ "y" ∧ s ≠ "n")
    (hb : d.bodyDark = false) (hc : ∀ c ∈ d.cards, c = false) :
    resolvedPref st = Preference.Light ∧
    (Part000.dark_init st d).2.bodyDark = false ∧
    (∀ c ∈ (Part000.dark_init st d).2.cards, c = false) := by
  have hg : ¬ _get_dark_state st = "y" := by
    rcases hst with h | ⟨s, hs, hy, _⟩
    · simp [_get_dark_state, h]
    · intro hcon
      have : st.darkmode_enabled = some "y" := (get_dark_state_eq_y st).mp hcon
      rw [hs] at this
      exact hy (Option.some_inj.mp this)
  refine ⟨?_, ?_, ?_⟩
  · unfold resolvedPref
    rw [if_neg hg]
  · rw [dark_init_bodyDark, if_neg hg]
    exact hb
  · rw [dark_init_cards, if_neg hg]
    exact hc

/-- C3 witness: a stored value outside the valid domain on a fresh
one-card document. -/
theorem init_default_light_witness :
    resolvedPref ⟨some "maybe"⟩ = Preference.Light ∧
    (Part000.dark_init ⟨some "maybe"⟩ ⟨false, [false], [], [], true, []⟩).2.bodyDark = false ∧
    (∀ c ∈ (Part000.dark_init ⟨some "maybe"⟩ ⟨false, [false], [], [], true, []⟩).2.cards,
      c = false) :=
  init_default_light ⟨some "maybe"⟩ ⟨false, [false], [], [], true, []⟩
    (Or.inr ⟨"maybe", rfl, by decide, by decide⟩) rfl (by decide)

theorem toggle_dark_buttons_head (st : Store) (d : Doc) (hd : d.buttons ≠ []) :
    (Part000.toggle_dark st d).2.buttons.head? =
      some (if _get_dark_state st = "y" then Part000.DARK_TEXT else Part000.UNDARK_TEXT) := by
  have h2 : (Part000.toggle_dark st d).2 =
      Part000._set_button_text (if _get_dark_state st = "y" then "n" else "y")
        (Part000._darken d) := rfl
  rw [h2, set_button_text_head _ _ (show (Part000._darken d).buttons ≠ [] from hd)]
  by_cases h : _get_dark_state st = "y" <;> simp [h]

theorem dark_init_buttons_head_present (st : Store) (d : Doc)
    (hd : d.buttons ≠ [] ∨ d.hasHeaderDiv = true) :
    (Part000.dark_init st d).2.buttons.head? =
      some (if _get_dark_state st = "y" then Part000.UNDARK_TEXT else Part000.DARK_TEXT) := by
  unfold Part000.dark_init
  apply set_button_text_head
  rcases hd with hb | hh
  · by_cases h : _get_dark_state st = "y" <;> by_cases hh2 : d.hasHeaderDiv <;>
      simp [h, hh2, Part000._darken, hb]
  · by_cases h : _get_dark_state st = "y" <;> simp [h, hh, Part000._darken]

/-- C4: the control's label text always names the target state reachable by
one more toggle, never the current state's own label: after toggle_dark()
whenever the control is in the document, and after dark_init() whenever the
control is in the document afterwards — whether it was already present or
dark_init() itself created it and inserted it into the header container,
as on a normal fresh page load. -/
theorem label_shows_target (st : Store) (d : Doc)
    (hd : d.buttons ≠ [] ∨ d.hasHeaderDiv = true) :
    (d.buttons ≠ [] →
      ((Part000.toggle_dark st d).2.buttons.head? =
          some (Part000.labelOf (opposite (resolvedPref (Part000.toggle_dark st d).1))) ∧
        (Part000.toggle_dark st d).2.buttons.head? ≠
          some (Part000.labelOf (resolvedPref (Part000.toggle_dark st d).1)))) ∧
    ((Part000.dark_init st d).2.buttons.head? =
        some (Part000.labelOf (opposite (resolvedPref st))) ∧
      (Part000.dark_init st d).2.buttons.head? ≠
        some (Part000.labelOf (resolvedPref st))) := by
  have hi := dark_init_buttons_head_present st d hd
  have hrt : resolvedPref (Part000.toggle_dark st d).1 =
      (if _get_dark_state st = "y" then Preference.Light else Preference.Dark) := by
    unfold resolvedPref
    rw [get_dark_state_toggle]
    by_cases h : _get_dark_state st = "y" <;> simp [h]
  constructor
  · intro hb
    have ht := toggle_dark_buttons_head st d hb
    by_cases h : _get_dark_state st = "y" <;> rw [ht, hrt] <;>
      simp [h, resolvedPref, opposite, Part000.labelOf,
        Part000.UNDARK_TEXT, Part000.DARK_TEXT]
  · by_cases h : _get_dark_state st = "y" <;> rw [hi] <;>
      simp [h, resolvedPref, opposite, Part000.labelOf,
        Part000.UNDARK_TEXT, Part000.DARK_TEXT]

/-- C4 witness: a normal fresh page — no pre-existing control, header
container present — with an absent stored value, so dark_init() itself
creates and inserts the control. -/
theorem label_shows_target_witness :
    ((⟨false, [], [], [], true, []⟩ : Doc).buttons ≠ [] →
      ((Part000.toggle_dark ⟨none⟩ ⟨false, [], [], [], true, []⟩).2.buttons.head? =
          some (Part000.labelOf (opposite (resolvedPref
            (Part000.toggle_dark ⟨none⟩ ⟨false, [], [], [], true, []⟩).1))) ∧
        (Part000.toggle_dark ⟨none⟩ ⟨false, [], [], [], true, []⟩).2.buttons.head? ≠
          some (Part000.labelOf (resolvedPref
            (Part000.toggle_dark ⟨none⟩ ⟨false, [], [], [], true, []⟩).1)))) ∧
    ((Part000.dark_init ⟨none⟩ ⟨false, [], [], [], true, []⟩).2.buttons.head? =
        some (Part000.labelOf (opposite (resolvedPref ⟨none⟩))) ∧
      (Part000.dark_init ⟨none⟩ ⟨false, [], [], [], true, []⟩).2.buttons.head? ≠
        some (Part000.labelOf (resolvedPref ⟨none⟩))) :=
  label_shows_target ⟨none⟩ ⟨false, [], [], [], true, []⟩ (Or.inr rfl)

theorem agree_toggle (st : Store) (d : Doc) (i : Nat)
    (h : d.cards[i]? = some d.bodyDark) :
    (Part000.toggle_dark st d).2.cards[i]? =
      some ((Part000.toggle_dark st d).2.bodyDark) := by
  rw [toggle_dark_cards, toggle_dark_bodyDark]
  simp [List.getElem?_map, h]

theorem agree_init (st : Store) (d : Doc) (i : Nat)
    (h : d.cards[i]? = some d.bodyDark) :
    (Part000.dark_init st d).2.cards[i]? =
      some ((Part000.dark_init st d).2.bodyDark) := by
  rw [dark_init_cards, dark_init_bodyDark]
  by_cases hg : _get_dark_state st = "y" <;> simp [hg, List.getElem?_map, h]

theorem agree_toggleIter (n : Nat) (s : Store × Doc) (i : Nat)
    (h : s.2.cards[i]? = some s.2.bodyDark) :
    (toggleIter n s).2.cards[i]? = some ((toggleIter n s).2.bodyDark) := by
  induction n generalizing s with
  | zero => exact h
  | succ n ih => exact ih _ (agree_toggle s.1 s.2 i h)

/-- C6 (counterexample): a card that already carries the dark marker before
page load ends up out of sync with the body: with stored value "y",
dark_init flips the body's marker on and that card's marker off, and the
claimed equivalence fails immediately after initialization. -/
theorem surface_sync_counterexample :
    ((Part000.dark_init ⟨some "y"⟩ ⟨false, [true], [], [], false, []⟩).2).bodyDark = true ∧
    ((Part000.dark_init ⟨some "y"⟩ ⟨false, [true], [], [], false, []⟩).2).cards = [false] :=
  ⟨rfl, rfl⟩

/-- C6 (amended): every themed surface whose marker state agrees with the
body's at initialization time — in particular every surface on a fresh load,
where no marker is present — stays in sync with the body after dark_init()
and after any number of toggle_dark() calls. -/
theorem surface_sync_of_agree (st : Store) (d : Doc) (n i : Nat)
    (hag : d.cards[i]? = some d.bodyDark) :
    (toggleIter n (Part000.dark_init st d)).2.cards[i]? =
      some ((toggleIter n (Part000.dark_init st d)).2.bodyDark) :=
  agree_toggleIter n _ i (agree_init st d i hag)

/-- C6 witness: a fresh one-card document, stored value "y", one toggle
after initialization. -/
theorem surface_sync_of_agree_witness :
    (toggleIter 1 (Part000.dark_init ⟨some "y"⟩ ⟨false, [false], [], [], true, []⟩)).2.cards[0]? =
      some ((toggleIter 1
        (Part000.dark_init ⟨some "y"⟩ ⟨false, [false], [], [], true, []⟩)).2.bodyDark) :=
  surface_sync_of_agree ⟨some "y"⟩ ⟨false, [false], [], [], true, []⟩ 1 0 rfl

end Claims

end DarkMode
